import Mathlib

/-!
Shallow embedding of the PortFlow clearing-agent core
(`PortFlow-Backend/portflow-agent/core`): the `Container` entity of
`core/models.py`, the validation rules of `core/utils.py`
(`validate_container_data`), and the request handlers of `core/api.py`
(`upload_bill_of_lading`, `validate_container`, `check_customs_status`,
`pay_customs_duty`, `schedule_inspection`, `complete_inspection`,
`release_container`).

Modelling conventions:
* Django/HTTP plumbing is dropped; each handler becomes a pure function
  from the addressed container (plus request payload) to a result and the
  updated container.  Error responses (HTTP 400 bodies) become an
  `ApiError`; the handlers return the container unchanged on an error,
  exactly as the source returns before any mutation.
* Python `Decimal` values are exact decimals and are modelled as exact
  rationals (`ℚ`).  The one binary64 computation in scope — the duty
  formula `Decimal(float(weight) * 100 * 0.10)` of api.py lines 200-201 —
  is modelled by an explicit IEEE round-to-nearest-even rounding function
  (`roundToF64`) applied where the program converts to `float` and after
  each `float` multiplication, so the model rounds exactly where the
  program does.  Python truthiness of a `Decimal` (false exactly for
  `None` and zero) is modelled explicitly.
* Wall-clock data (log timestamps, `customs_paid_at` datetime, payment
  references, scheduled dates) and locale-formatted message strings are
  not observable by any property below; log entries keep their actor and
  action, `customs_paid_at` becomes the flag "stamped", and formatted
  message/detail strings are omitted where they embed the clock or
  currency formatting.
-/

namespace PortFlow

/-- `Container.OverallStatus` choices, models.py lines 10-18. -/
inductive OverallStatus
  | PENDING_VALIDATION
  | VALIDATED
  | PENDING_CUSTOMS
  | CUSTOMS_CLEARED
  | PENDING_INSPECTION
  | INSPECTION_PASSED
  | RELEASED
  | FAILED
deriving DecidableEq

/-- `Container.CustomsStatus` choices, models.py lines 20-25. -/
inductive CustomsStatus
  | PENDING
  | PAYMENT_REQUIRED
  | PAID
  | CLEARED
  | REJECTED
deriving DecidableEq

/-- `Container.ShippingStatus` choices, models.py lines 27-31. -/
inductive ShippingStatus
  | IN_TRANSIT
  | ARRIVED
  | DISCHARGED
  | READY_FOR_PICKUP
deriving DecidableEq

/-- `Container.InspectionStatus` choices, models.py lines 33-38. -/
inductive InspectionStatus
  | NOT_SCHEDULED
  | SCHEDULED
  | IN_PROGRESS
  | PASSED
  | FAILED
deriving DecidableEq

/-- One entry of the `logs` JSON list (models.py `add_log`).  The source
also stores a wall-clock `timestamp` and a free-text `details` string;
neither is observable by the properties below, so only the actor and the
action are kept. -/
structure LogEntry where
  actor : String
  action : String
deriving DecidableEq

/-- The `Container` model, models.py lines 40-82.  `customs_paid_at`
(a nullable datetime in the source) is modelled as the flag "has been
stamped"; `created_at` and `updated_at` are wall-clock bookkeeping with no
bearing on the claims and are omitted. -/
structure Container where
  container_id : String
  overall_status : OverallStatus
  vessel_name : Option String
  importer_name : Option String
  importer_address : Option String
  tin : Option String
  port_of_loading : Option String
  port_of_discharge : Option String
  cargo_description : Option String
  cargo_weight : Option ℚ
  customs_status : CustomsStatus
  shipping_status : ShippingStatus
  inspection_status : InspectionStatus
  customs_duty_amount : Option ℚ
  customs_paid_at : Bool
  original_filename : Option String
  document_validated : Bool
  validation_errors : List String
  logs : List LogEntry
deriving DecidableEq

/-- `Container.add_log` (models.py lines 90-100): append one log entry. -/
def Container.add_log (c : Container) (actor action : String) : Container :=
  { c with logs := c.logs ++ [{ actor := actor, action := action }] }

/-- The structured record extracted from a Bill of Lading, i.e. the
`data` dictionary handed to `validate_container_data` and
`Container.objects.create` in api.py.  A missing dictionary key is
`none`; Python truthiness additionally treats an empty string or a zero
`Decimal` as absent. -/
structure ExtractedData where
  container_id : String
  vessel_name : Option String
  importer_name : Option String
  importer_address : Option String
  tin : Option String
  port_of_loading : Option String
  port_of_discharge : Option String
  cargo_description : Option String
  cargo_weight : Option ℚ
deriving DecidableEq

/-- Python truthiness of an optional string: `None` and `""` are falsy. -/
def optStrTruthy : Option String → Bool
  | none => false
  | some s => s != ""

/-- Python truthiness of an optional `Decimal`: `None` and `0` are falsy
(`bool(Decimal(0)) == False`). -/
def optRatTruthy : Option ℚ → Bool
  | none => false
  | some q => q != 0

/-- ASCII uppercase letter, the character class `[A-Z]`. -/
def isUpperLetter (c : Char) : Bool := ('A' ≤ c && c ≤ 'Z')

/-- The character list matches `[A-Z]{4}\d{7}` exactly: four uppercase
letters followed by seven digits.  (Python `\d` also admits non-ASCII
Unicode digits; container identifiers are ASCII, where the classes
coincide.) -/
def matchesContainerIdCore (cs : List Char) : Bool :=
  cs.length == 11 && (cs.take 4).all isUpperLetter && (cs.drop 4).all Char.isDigit

/-- Python `re.match` of an anchored pattern `^P$` against a whole string:
the dollar anchor also matches just before a single trailing newline, so
the string matches when its characters match `P`, or when it ends in one
newline and the rest matches `P`. -/
def pyFullMatch (core : List Char → Bool) (s : String) : Bool :=
  core s.data || ((s.data.getLast? == some '\n') && core s.data.dropLast)

/-- `re.match(r'^[A-Z]{4}\d{7}$', s)` succeeds (utils.py line 182). -/
def pyMatchContainerId (s : String) : Bool :=
  pyFullMatch matchesContainerIdCore s

/-- Python `s.startswith(pre)`, over the character lists. -/
def pyStartsWith (s pre : String) : Bool :=
  pre.data.isPrefixOf s.data

/-- The character list matches `\d{10,12}` exactly. -/
def matchesTinCore (cs : List Char) : Bool :=
  (10 ≤ cs.length && cs.length ≤ 12) && cs.all Char.isDigit

/-- `re.match(r'^\d{10,12}$', s)` succeeds (utils.py line 186). -/
def pyMatchTin (s : String) : Bool :=
  pyFullMatch matchesTinCore s

/-- `validate_container_data` (utils.py lines 166-195): collect the error
messages of all five rules, in source order, with no short-circuiting. -/
def validate_container_data (d : ExtractedData) : List String :=
  (if d.container_id = "" then ["Container ID is required"] else []) ++
  (if d.container_id ≠ "" ∧ pyMatchContainerId d.container_id = false ∧
      pyStartsWith d.container_id "DEMO" = false then
    ["Container ID format is invalid (expected: 4 letters + 7 digits)"] else []) ++
  (if optStrTruthy d.tin = true ∧ pyMatchTin (d.tin.getD "") = false then
    ["TIN format is invalid (expected: 10-12 digits)"] else []) ++
  (if optStrTruthy d.vessel_name = false then
    ["Vessel name is missing (recommended)"] else []) ++
  (if optStrTruthy d.importer_name = false then
    ["Importer name is missing (recommended)"] else [])

/-- The distinct HTTP-400 error bodies of api.py, one constructor per
`{"error": ...}` string: `"Container already exists"` (line 67),
`"Already paid"` (line 230), `"Insufficient payment"` (line 233),
`"Customs not cleared"` (line 299), `"Already scheduled"` (line 305),
`"Inspection not passed"` (line 374). -/
inductive ApiError
  | ContainerExists
  | AlreadyPaid
  | InsufficientPayment
  | CustomsNotCleared
  | AlreadyScheduled
  | InspectionNotPassed
deriving DecidableEq

/-- `ContainerCreateSchema` (schemas.py lines 37-41) minus the constant
message string. -/
structure ContainerCreateResponse where
  container_id : String
  overall_status : OverallStatus
deriving DecidableEq

/-- `ValidationResponseSchema` (schemas.py lines 53-58). -/
structure ValidationResponse where
  container_id : String
  is_valid : Bool
  errors : List String
  message : String
deriving DecidableEq

/-- `CustomsStatusResponseSchema` (schemas.py lines 74-79) minus the
currency-formatted message string. -/
structure CustomsStatusResponse where
  container_id : String
  customs_status : CustomsStatus
  amount_due : Option ℚ
deriving DecidableEq

/-- `CustomsPaymentResponseSchema` (schemas.py lines 66-72) minus the
wall-clock payment date and the formatted message. -/
structure CustomsPaymentResponse where
  container_id : String
  status : CustomsStatus
  amount_paid : ℚ
deriving DecidableEq

/-- `InspectionScheduleResponseSchema` (schemas.py lines 94-99) minus the
clock-derived scheduled date and the formatted message. -/
structure InspectionScheduleResponse where
  container_id : String
  inspection_status : InspectionStatus
deriving DecidableEq

/-- `upload_bill_of_lading` (api.py lines 40-106) from the point where the
parsed `data` dictionary is in hand (line 63): the PDF extension check and
`BillOfLadingParser` upstream are document ingestion, outside the engine.
Storage is the list of existing containers; `Container.objects.filter(...)
.first()` (line 65) is the duplicate scan, `Container.objects.create`
(lines 75-91) builds the record with the model defaults of models.py for
the fields not passed, and `add_log` (lines 93-97) appends the
`document_upload` entry. -/
def upload_bill_of_lading (store : List Container) (d : ExtractedData)
    (filename : String) : Except ApiError ContainerCreateResponse × List Container :=
  if store.any (fun c => c.container_id == d.container_id) then
    (Except.error ApiError.ContainerExists, store)
  else
    let errors := validate_container_data d
    let c0 : Container := {
      container_id := d.container_id,
      vessel_name := d.vessel_name,
      importer_name := d.importer_name,
      importer_address := d.importer_address,
      tin := d.tin,
      port_of_loading := d.port_of_loading,
      port_of_discharge := some (d.port_of_discharge.getD "Lagos, Nigeria"),
      cargo_description := d.cargo_description,
      cargo_weight := d.cargo_weight,
      original_filename := some filename,
      document_validated := errors.isEmpty,
      validation_errors := errors,
      overall_status := OverallStatus.PENDING_VALIDATION,
      shipping_status := ShippingStatus.DISCHARGED,
      customs_status := CustomsStatus.PENDING,
      inspection_status := InspectionStatus.NOT_SCHEDULED,
      customs_duty_amount := none,
      customs_paid_at := false,
      logs := [] }
    let c1 := c0.add_log "system" "document_upload"
    (Except.ok { container_id := c1.container_id,
                 overall_status := c1.overall_status }, store ++ [c1])

/-- The dictionary `validate_container` hands to `validate_container_data`
(api.py lines 152-157): only the four keys `container_id`, `vessel_name`,
`importer_name` and `tin` are present; every other lookup in
`validate_container_data` falls back to its default. -/
def revalidationData (c : Container) : ExtractedData :=
  { container_id := c.container_id,
    vessel_name := c.vessel_name,
    importer_name := c.importer_name,
    importer_address := none,
    tin := c.tin,
    port_of_loading := none,
    port_of_discharge := none,
    cargo_description := none,
    cargo_weight := none }

/-- `validate_container` (api.py lines 142-183): re-validate when forced
or not yet validated, otherwise answer from the stored state without
mutating anything. -/
def validate_container (c0 : Container) (force_revalidate : Bool) :
    ValidationResponse × Container :=
  let c :=
    if force_revalidate || !c0.document_validated then
      let errors := validate_container_data (revalidationData c0)
      let c1 := { c0 with validation_errors := errors,
                          document_validated := errors.isEmpty }
      if c1.document_validated then
        ({ c1 with overall_status := OverallStatus.VALIDATED }).add_log
          "agent" "validation"
      else
        c1.add_log "agent" "validation_failed"
    else c0
  ({ container_id := c.container_id,
     is_valid := c.document_validated,
     errors := c.validation_errors,
     message := if c.document_validated then "Validation successful"
                else "Validation failed" }, c)

/-- Round a rational to the nearest integer, ties to the even integer:
the rounding of IEEE-754 round-to-nearest-even at integer granularity. -/
def rne (x : ℚ) : ℤ :=
  if x - ⌊x⌋ < 1/2 then ⌊x⌋
  else if 1/2 < x - ⌊x⌋ then ⌊x⌋ + 1
  else if 2 ∣ ⌊x⌋ then ⌊x⌋ else ⌊x⌋ + 1

/-- The binary64 (IEEE-754 double, round-to-nearest-even) value nearest a
rational: scale by the ulp `2 ^ (e - 52)` of the number's binade `e` and
round the 53-bit significand to nearest, ties to even.  Exponent overflow
and subnormal underflow are not modelled: every value the duty
computation can meet (a positive weight of at most 10 digits with 2
decimal places, per the model's `DecimalField(max_digits=10,
decimal_places=2)`, and its products with 100 and 0.1) lies far inside
the normal binary64 range, where this is exactly the IEEE rounding. -/
def roundToF64 (q : ℚ) : ℚ :=
  if q = 0 then 0
  else
    (if q < 0 then (-1 : ℚ) else 1) *
      (rne (|q| / 2 ^ (Int.log 2 |q| - 52)) : ℚ) * 2 ^ (Int.log 2 |q| - 52)

/-- A binary64 multiplication: the exact product, rounded back to the
nearest binary64 value. -/
def f64Mul (x y : ℚ) : ℚ := roundToF64 (x * y)

/-- `check_customs_status` (api.py lines 188-217): lazily assess the duty.
The weight branch is taken on Python truthiness (`if container.cargo_weight:`,
line 199), so a `None` weight and a zero weight both fall to the flat
`Decimal('150000.00')`.  The weight formula (lines 200-201) is
`Decimal(float(container.cargo_weight) * 100 * 0.10)`, computed in
binary64: `float(...)` rounds the exact `Decimal` weight to a double
(`roundToF64`), the int literal 100 promotes to the exact double 100.0,
the literal `0.10` denotes the double nearest 1/10 (`roundToF64 0.10`),
each multiplication rounds its exact product (`f64Mul`), and the final
`Decimal(...)` conversion from the double is exact. -/
def check_customs_status (c0 : Container) : CustomsStatusResponse × Container :=
  let c :=
    if c0.customs_duty_amount = none then
      let amount : ℚ :=
        if optRatTruthy c0.cargo_weight then
          f64Mul (f64Mul (roundToF64 (c0.cargo_weight.getD 0)) 100)
            (roundToF64 0.10)
        else 150000.00
      let c1 := { c0 with customs_duty_amount := some amount }
      if c1.customs_status = CustomsStatus.PENDING then
        { c1 with customs_status := CustomsStatus.PAYMENT_REQUIRED }
      else c1
    else c0
  ({ container_id := c.container_id,
     customs_status := c.customs_status,
     amount_due := if c.customs_status = CustomsStatus.PAYMENT_REQUIRED then
                     c.customs_duty_amount
                   else none }, c)

/-- The underpayment test of api.py line 232,
`container.customs_duty_amount and payload.amount < container.customs_duty_amount`:
Python truthiness of the `Decimal` means the comparison is only consulted
when the assessed amount is set and nonzero. -/
def dutySetAndUnderpaid (duty : Option ℚ) (amount : ℚ) : Bool :=
  match duty with
  | none => false
  | some d => (d != 0) && (amount < d : Bool)

/-- `pay_customs_duty` (api.py lines 220-259).  The optional
`payment_reference` of the request only feeds the clock-stamped details
string of the log entry, which is not modelled. -/
def pay_customs_duty (c : Container) (amount : ℚ) :
    Except ApiError CustomsPaymentResponse × Container :=
  if c.customs_status = CustomsStatus.PAID then
    (Except.error ApiError.AlreadyPaid, c)
  else if dutySetAndUnderpaid c.customs_duty_amount amount then
    (Except.error ApiError.InsufficientPayment, c)
  else
    let c1 := { c with customs_status := CustomsStatus.PAID,
                       customs_paid_at := true,
                       overall_status := OverallStatus.CUSTOMS_CLEARED }
    let c2 := c1.add_log "agent" "customs_payment"
    (Except.ok { container_id := c2.container_id,
                 status := c2.customs_status,
                 amount_paid := amount }, c2)

/-- `schedule_inspection` (api.py lines 289-329).  The mock scheduled date
(tomorrow, 10 AM) is wall-clock data, not modelled. -/
def schedule_inspection (c : Container) :
    Except ApiError InspectionScheduleResponse × Container :=
  if c.customs_status ≠ CustomsStatus.PAID then
    (Except.error ApiError.CustomsNotCleared, c)
  else if c.inspection_status = InspectionStatus.SCHEDULED then
    (Except.error ApiError.AlreadyScheduled, c)
  else
    let c1 := { c with inspection_status := InspectionStatus.SCHEDULED,
                       overall_status := OverallStatus.PENDING_INSPECTION }
    let c2 := c1.add_log "agent" "inspection_scheduled"
    (Except.ok { container_id := c2.container_id,
                 inspection_status := c2.inspection_status }, c2)

/-- `complete_inspection` (api.py lines 332-362): no guard beyond
existence; unconditionally overwrite the inspection and overall statuses
according to `passed`. -/
def complete_inspection (c : Container) (passed : Bool) : Container :=
  if passed then
    ({ c with inspection_status := InspectionStatus.PASSED,
              overall_status := OverallStatus.INSPECTION_PASSED }).add_log
      "npa_inspector" "inspection_passed"
  else
    ({ c with inspection_status := InspectionStatus.FAILED,
              overall_status := OverallStatus.FAILED }).add_log
      "npa_inspector" "inspection_failed"

/-- `release_container` (api.py lines 365-397). -/
def release_container (c : Container) : Except ApiError Unit × Container :=
  if c.inspection_status ≠ InspectionStatus.PASSED then
    (Except.error ApiError.InspectionNotPassed, c)
  else
    let c1 := { c with overall_status := OverallStatus.RELEASED,
                       shipping_status := ShippingStatus.READY_FOR_PICKUP }
    let c2 := c1.add_log "agent" "container_released"
    (Except.ok (), c2)

/-! Concrete containers used to evaluate the theorems below on explicit
inputs.  `sampleContainer` mirrors the spec's end-to-end scenario: a
freshly created container `MAEU4567890` of cargo weight 18500. -/

def sampleContainer : Container :=
  { container_id := "MAEU4567890",
    overall_status := OverallStatus.PENDING_VALIDATION,
    vessel_name := some "MV Lagos Express",
    importer_name := some "Acme Imports Ltd",
    importer_address := none,
    tin := some "1234567890",
    port_of_loading := some "Shanghai",
    port_of_discharge := some "Lagos, Nigeria",
    cargo_description := none,
    cargo_weight := some 18500,
    customs_status := CustomsStatus.PENDING,
    shipping_status := ShippingStatus.DISCHARGED,
    inspection_status := InspectionStatus.NOT_SCHEDULED,
    customs_duty_amount := none,
    customs_paid_at := false,
    original_filename := some "bol.pdf",
    document_validated := true,
    validation_errors := [],
    logs := [] }

/-- Claim C6: when `force_revalidate` is false and the container is
already validated, `validate_container` is a pure read: the container
comes back completely unchanged (in particular no log entry and no field
mutation) and the response reports the stored validation state. -/
theorem C6_validate_pure_read (c : Container)
    (hv : c.document_validated = true) :
    validate_container c false =
      ({ container_id := c.container_id,
         is_valid := c.document_validated,
         errors := c.validation_errors,
         message := "Validation successful" }, c) := by
  simp [validate_container, hv]

/-- Evaluation of `C6_validate_pure_read` on `sampleContainer`. -/
theorem C6_validate_pure_read_witness :
    validate_container sampleContainer false =
      ({ container_id := "MAEU4567890",
         is_valid := true,
         errors := [],
         message := "Validation successful" }, sampleContainer) :=
  C6_validate_pure_read sampleContainer rfl

/-- Claim C7: `release_container` on a container whose inspection status
is not `PASSED` fails with the inspection-not-passed error and leaves the
container unchanged; on a container with inspection `PASSED` it succeeds,
setting `overall_status = RELEASED` and
`shipping_status = READY_FOR_PICKUP` and appending a
`container_released` log entry by actor `agent`. -/
theorem C7_release_container (c : Container) :
    (c.inspection_status ≠ InspectionStatus.PASSED →
      release_container c = (Except.error ApiError.InspectionNotPassed, c)) ∧
    (c.inspection_status = InspectionStatus.PASSED →
      release_container c =
        (Except.ok (),
         ({ c with overall_status := OverallStatus.RELEASED,
                   shipping_status := ShippingStatus.READY_FOR_PICKUP }).add_log
           "agent" "container_released")) := by
  constructor
  · intro h
    simp [release_container, h]
  · intro h
    simp [release_container, h]

/-- Evaluation of `C7_release_container` on `sampleContainer` (inspection
not passed: rejected unchanged) and on its inspected variant (released,
ready for pickup, `container_released` logged by `agent`). -/
theorem C7_release_container_witness :
    (release_container sampleContainer =
      (Except.error ApiError.InspectionNotPassed, sampleContainer)) ∧
    (release_container
        { sampleContainer with inspection_status := InspectionStatus.PASSED } =
      (Except.ok (),
       { sampleContainer with
           inspection_status := InspectionStatus.PASSED,
           overall_status := OverallStatus.RELEASED,
           shipping_status := ShippingStatus.READY_FOR_PICKUP,
           logs := [{ actor := "agent", action := "container_released" }] })) := by
  constructor
  · exact (C7_release_container sampleContainer).1 (by decide)
  · have h := (C7_release_container
      { sampleContainer with inspection_status := InspectionStatus.PASSED }).2 rfl
    simpa [Container.add_log, sampleContainer] using h

/-- Claim C8: creating a container whose `container_id` already exists in
storage fails with the conflict error and returns the store untouched —
in particular the pre-existing record is unmodified and gains no log
entry, whatever the other fields of the extracted data contain. -/
theorem C8_duplicate_creation (store : List Container) (d : ExtractedData)
    (filename : String)
    (h : ∃ c ∈ store, c.container_id = d.container_id) :
    upload_bill_of_lading store d filename =
      (Except.error ApiError.ContainerExists, store) := by
  have hany : store.any (fun c => c.container_id == d.container_id) = true := by
    rw [List.any_eq_true]
    obtain ⟨c, hc, he⟩ := h
    exact ⟨c, hc, by simp [he]⟩
  simp [upload_bill_of_lading, hany]

/-- Evaluation of `C8_duplicate_creation`: re-uploading extracted data
carrying `sampleContainer`'s identifier (with entirely different field
contents) against a store holding `sampleContainer`. -/
theorem C8_duplicate_creation_witness :
    upload_bill_of_lading [sampleContainer]
      { container_id := "MAEU4567890",
        vessel_name := none,
        importer_name := none,
        importer_address := none,
        tin := none,
        port_of_loading := none,
        port_of_discharge := none,
        cargo_description := none,
        cargo_weight := none } "other.pdf" =
      (Except.error ApiError.ContainerExists, [sampleContainer]) :=
  C8_duplicate_creation [sampleContainer] _ "other.pdf"
    ⟨sampleContainer, by simp, rfl⟩

/-- Claim C9 (implicit): `pay_customs_duty` does not require a prior duty
assessment — on a container whose `customs_status` is not `PAID` and
whose `customs_duty_amount` is unset or equal to zero, the Python
truthiness test skips the insufficiency check entirely, so the payment
succeeds for every amount, marking the duty paid and the container
customs-cleared. -/
theorem C9_pay_without_assessment (c : Container) (amount : ℚ)
    (hnp : c.customs_status ≠ CustomsStatus.PAID)
    (hd : c.customs_duty_amount = none ∨ c.customs_duty_amount = some 0) :
    pay_customs_duty c amount =
      (Except.ok { container_id := c.container_id,
                   status := CustomsStatus.PAID,
                   amount_paid := amount },
       ({ c with customs_status := CustomsStatus.PAID,
                 customs_paid_at := true,
                 overall_status := OverallStatus.CUSTOMS_CLEARED }).add_log
         "agent" "customs_payment") := by
  have hskip : dutySetAndUnderpaid c.customs_duty_amount amount = false := by
    rcases hd with h | h <;> simp [dutySetAndUnderpaid, h]
  simp [pay_customs_duty, hnp, hskip, Container.add_log]

/-- Evaluation of `C9_pay_without_assessment` on `sampleContainer`
(no duty assessed yet) with the arbitrary amount 1. -/
theorem C9_pay_without_assessment_witness :
    pay_customs_duty sampleContainer 1 =
      (Except.ok { container_id := "MAEU4567890",
                   status := CustomsStatus.PAID,
                   amount_paid := 1 },
       { sampleContainer with
           customs_status := CustomsStatus.PAID,
           customs_paid_at := true,
           overall_status := OverallStatus.CUSTOMS_CLEARED,
           logs := [{ actor := "agent", action := "customs_payment" }] }) := by
  have h := C9_pay_without_assessment sampleContainer 1 (by decide) (Or.inl rfl)
  simpa [Container.add_log, sampleContainer] using h

/-- Claim C10 (implicit): once customs is `PAID`, `schedule_inspection`
succeeds from every inspection status other than `SCHEDULED` — including
`PASSED` and `FAILED` after a completed inspection — resetting
`inspection_status` to `SCHEDULED` and `overall_status` to
`PENDING_INSPECTION`; only the exact status `SCHEDULED` triggers the
already-scheduled conflict, which leaves the container unchanged. -/
theorem C10_schedule_inspection_reschedulable (c : Container)
    (hp : c.customs_status = CustomsStatus.PAID) :
    (c.inspection_status ≠ InspectionStatus.SCHEDULED →
      schedule_inspection c =
        (Except.ok { container_id := c.container_id,
                     inspection_status := InspectionStatus.SCHEDULED },
         ({ c with inspection_status := InspectionStatus.SCHEDULED,
                   overall_status := OverallStatus.PENDING_INSPECTION }).add_log
           "agent" "inspection_scheduled")) ∧
    (c.inspection_status = InspectionStatus.SCHEDULED →
      schedule_inspection c = (Except.error ApiError.AlreadyScheduled, c)) := by
  constructor
  · intro h
    simp [schedule_inspection, hp, h, Container.add_log]
  · intro h
    simp [schedule_inspection, hp, h]

/-- Evaluation of `C10_schedule_inspection_reschedulable` on a paid
container whose inspection already `PASSED`: rescheduling succeeds and
resets the statuses. -/
theorem C10_schedule_inspection_reschedulable_witness :
    schedule_inspection
        { sampleContainer with
            customs_status := CustomsStatus.PAID,
            inspection_status := InspectionStatus.PASSED } =
      (Except.ok { container_id := "MAEU4567890",
                   inspection_status := InspectionStatus.SCHEDULED },
       { sampleContainer with
           customs_status := CustomsStatus.PAID,
           inspection_status := InspectionStatus.SCHEDULED,
           overall_status := OverallStatus.PENDING_INSPECTION,
           logs := [{ actor := "agent", action := "inspection_scheduled" }] }) := by
  have h := (C10_schedule_inspection_reschedulable
      { sampleContainer with
          customs_status := CustomsStatus.PAID,
          inspection_status := InspectionStatus.PASSED } rfl).1 (by decide)
  simpa [Container.add_log, sampleContainer] using h

/-- After any `check_customs_status` call the duty amount is set: the
assessing branch always stores `some` amount and the other branch is only
taken when an amount is already stored. -/
lemma check_customs_status_duty_isSome (c : Container) :
    (check_customs_status c).2.customs_duty_amount ≠ none := by
  by_cases h : c.customs_duty_amount = none
  · by_cases h2 : c.customs_status = CustomsStatus.PENDING <;>
      simp [check_customs_status, h, h2]
  · simp [check_customs_status, h]

/-- A container whose duty amount is already set is a fixed point of
`check_customs_status`: the assessing branch is skipped and nothing is
saved. -/
lemma check_customs_status_state_fixed (c : Container)
    (h : c.customs_duty_amount ≠ none) :
    (check_customs_status c).2 = c := by
  simp [check_customs_status, h]

/-- The response of `check_customs_status` is a function of the stored
post-call container alone. -/
lemma check_customs_status_response (c : Container) :
    (check_customs_status c).1 =
      { container_id := (check_customs_status c).2.container_id,
        customs_status := (check_customs_status c).2.customs_status,
        amount_due :=
          if (check_customs_status c).2.customs_status =
              CustomsStatus.PAYMENT_REQUIRED then
            (check_customs_status c).2.customs_duty_amount
          else none } := by
  by_cases h : c.customs_duty_amount = none
  · by_cases h2 : c.customs_status = CustomsStatus.PENDING <;>
      simp [check_customs_status, h, h2]
  · simp [check_customs_status, h]

/-- Claim C4: `check_customs_status` is idempotent.  The second of two
successive calls mutates nothing (the stored container is a fixed point)
and returns the identical response — in particular the identical
`customs_duty_amount` — and the `PENDING → PAYMENT_REQUIRED` transition
happens exactly on a first call that finds the duty amount unset. -/
theorem C4_check_customs_idempotent (c : Container) :
    (check_customs_status (check_customs_status c).2).2 =
      (check_customs_status c).2 ∧
    (check_customs_status (check_customs_status c).2).1 =
      (check_customs_status c).1 ∧
    ((check_customs_status c).2.customs_status =
      if c.customs_duty_amount = none ∧ c.customs_status = CustomsStatus.PENDING
      then CustomsStatus.PAYMENT_REQUIRED else c.customs_status) := by
  have hsome := check_customs_status_duty_isSome c
  have hfix := check_customs_status_state_fixed _ hsome
  refine ⟨hfix, ?_, ?_⟩
  · rw [check_customs_status_response (check_customs_status c).2,
      check_customs_status_response c, hfix]
  · by_cases h : c.customs_duty_amount = none
    · by_cases h2 : c.customs_status = CustomsStatus.PENDING <;>
        simp [check_customs_status, h, h2]
    · simp [check_customs_status, h]

/-- A malformed identifier (present, not matching the pattern, not
`DEMO`-prefixed) contributes the format error to the collected list. -/
lemma format_error_mem (d : ExtractedData) (h1 : d.container_id ≠ "")
    (h2 : pyMatchContainerId d.container_id = false)
    (h3 : pyStartsWith d.container_id "DEMO" = false) :
    "Container ID format is invalid (expected: 4 letters + 7 digits)" ∈
      validate_container_data d := by
  unfold validate_container_data
  simp [h1, h2, h3]

/-- A missing vessel name contributes its advisory error to the collected
list, independently of any other rule. -/
lemma vessel_error_mem (d : ExtractedData)
    (h : optStrTruthy d.vessel_name = false) :
    "Vessel name is missing (recommended)" ∈ validate_container_data d := by
  unfold validate_container_data
  simp [h]

/-- Claim C5: whenever the container identifier is nonempty, fails the
`^[A-Z]{4}\d{7}$` match and is not `DEMO`-prefixed, running validation
includes the identifier-format error string in `validation_errors` and
sets `document_validated` to false — both on the `validate_container`
path (when the re-validation guard lets it run) and on the creation path
— and the rules are not short-circuited: a missing vessel name still
contributes its own error alongside the format error. -/
theorem C5_validation_rules :
    (∀ (c : Container) (force : Bool),
      c.container_id ≠ "" →
      pyMatchContainerId c.container_id = false →
      pyStartsWith c.container_id "DEMO" = false →
      (force = true ∨ c.document_validated = false) →
      ("Container ID format is invalid (expected: 4 letters + 7 digits)" ∈
          (validate_container c force).2.validation_errors ∧
        (validate_container c force).2.document_validated = false ∧
        (optStrTruthy c.vessel_name = false →
          "Vessel name is missing (recommended)" ∈
            (validate_container c force).2.validation_errors))) ∧
    (∀ (store : List Container) (d : ExtractedData) (filename : String),
      (¬ ∃ c ∈ store, c.container_id = d.container_id) →
      d.container_id ≠ "" →
      pyMatchContainerId d.container_id = false →
      pyStartsWith d.container_id "DEMO" = false →
      ∃ c1 : Container,
        (upload_bill_of_lading store d filename).2 = store ++ [c1] ∧
        "Container ID format is invalid (expected: 4 letters + 7 digits)" ∈
          c1.validation_errors ∧
        c1.document_validated = false ∧
        (optStrTruthy d.vessel_name = false →
          "Vessel name is missing (recommended)" ∈ c1.validation_errors)) := by
  constructor
  · intro c force h1 h2 h3 hguard
    have hmem : "Container ID format is invalid (expected: 4 letters + 7 digits)" ∈
        validate_container_data (revalidationData c) :=
      format_error_mem (revalidationData c) h1 h2 h3
    have hie : (validate_container_data (revalidationData c)).isEmpty = false := by
      simp [List.isEmpty_iff]
      exact List.ne_nil_of_mem hmem
    have hg : (force || !c.document_validated) = true := by
      rcases hguard with h | h <;> simp [h]
    refine ⟨?_, ?_, ?_⟩
    · simp [validate_container, hg, hie, Container.add_log]
      exact hmem
    · simp [validate_container, hg, hie, Container.add_log]
    · intro hv
      simp [validate_container, hg, hie, Container.add_log]
      exact vessel_error_mem (revalidationData c) hv
  · intro store d filename hnodup h1 h2 h3
    have hany : store.any (fun c => c.container_id == d.container_id) = false := by
      rw [List.any_eq_false]
      intro c hc
      simp only [beq_iff_eq]
      intro he
      exact hnodup ⟨c, hc, he⟩
    have hmem := format_error_mem d h1 h2 h3
    have hie : (validate_container_data d).isEmpty = false := by
      simp [List.isEmpty_iff]
      exact List.ne_nil_of_mem hmem
    simp only [upload_bill_of_lading, hany, Bool.false_eq_true, if_false,
      Container.add_log]
    refine ⟨_, rfl, by simpa using hmem, by simpa using hie,
      fun hv => by simpa using vessel_error_mem d hv⟩

/-- Extracted data with a malformed identifier and no vessel name, for
evaluating `C5_validation_rules` concretely. -/
def badExtracted : ExtractedData :=
  { container_id := "BAD-ID!",
    vessel_name := none,
    importer_name := some "Acme Imports Ltd",
    importer_address := none,
    tin := none,
    port_of_loading := none,
    port_of_discharge := none,
    cargo_description := none,
    cargo_weight := none }

/-- Evaluation of `C5_validation_rules` on the malformed identifier
`BAD-ID!`: on a forced re-validation and on creation into an empty store,
the format error is collected, the vessel error is collected alongside
it, and the document is marked not validated. -/
theorem C5_validation_rules_witness :
    ("Container ID format is invalid (expected: 4 letters + 7 digits)" ∈
        (validate_container
          { sampleContainer with container_id := "BAD-ID!", vessel_name := none }
          true).2.validation_errors ∧
      (validate_container
        { sampleContainer with container_id := "BAD-ID!", vessel_name := none }
        true).2.document_validated = false ∧
      "Vessel name is missing (recommended)" ∈
        (validate_container
          { sampleContainer with container_id := "BAD-ID!", vessel_name := none }
          true).2.validation_errors) ∧
    (∃ c1 : Container,
      (upload_bill_of_lading [] badExtracted "bad.pdf").2 = [] ++ [c1] ∧
      "Container ID format is invalid (expected: 4 letters + 7 digits)" ∈
        c1.validation_errors ∧
      c1.document_validated = false ∧
      (optStrTruthy badExtracted.vessel_name = false →
        "Vessel name is missing (recommended)" ∈ c1.validation_errors)) := by
  constructor
  · have h := C5_validation_rules.1
      { sampleContainer with container_id := "BAD-ID!", vessel_name := none }
      true (by decide) (by decide) (by decide) (Or.inl rfl)
    exact ⟨h.1, h.2.1, h.2.2 (by decide)⟩
  · exact C5_validation_rules.2 [] badExtracted "bad.pdf" (by simp)
      (by decide) (by decide) (by decide)

/-- `sampleContainer` after a successful release: `overall_status` is the
terminal `RELEASED`. -/
def releasedContainer : Container :=
  { sampleContainer with
      overall_status := OverallStatus.RELEASED,
      inspection_status := InspectionStatus.PASSED,
      shipping_status := ShippingStatus.READY_FOR_PICKUP,
      customs_status := CustomsStatus.PAID }

/-- Claim C1 fails on the code: `complete_inspection` carries no guard,
so on a container whose `overall_status` is the supposedly terminal
`RELEASED` it still overwrites `overall_status` — with `passed = true` it
moves it to `INSPECTION_PASSED`, which both changes a terminal state and
moves backward in the claimed order. -/
theorem C1_counterexample :
    releasedContainer.overall_status = OverallStatus.RELEASED ∧
    (complete_inspection releasedContainer true).overall_status =
      OverallStatus.INSPECTION_PASSED ∧
    OverallStatus.INSPECTION_PASSED ≠ OverallStatus.RELEASED := by
  refine ⟨rfl, ?_, by decide⟩
  simp [complete_inspection, Container.add_log]

/-- Claim C1 (amended): `FAILED` and `RELEASED` are not terminal and
`overall_status` is not forward-only.  `complete_inspection`
unconditionally overwrites `overall_status` on every container —
including `FAILED` and `RELEASED` ones — to `INSPECTION_PASSED` when
passed and to `FAILED` when not, and a forced `validate_container`
overwrites it to `VALIDATED` exactly when re-validation comes back
error-free (leaving it unchanged otherwise). -/
theorem C1_overall_status_not_terminal (c : Container) :
    (complete_inspection c true).overall_status =
      OverallStatus.INSPECTION_PASSED ∧
    (complete_inspection c false).overall_status = OverallStatus.FAILED ∧
    ((validate_container c true).2.overall_status =
      if (validate_container_data (revalidationData c)).isEmpty then
        OverallStatus.VALIDATED
      else c.overall_status) := by
  refine ⟨by simp [complete_inspection, Container.add_log],
    by simp [complete_inspection, Container.add_log], ?_⟩
  by_cases h : (validate_container_data (revalidationData c)).isEmpty <;>
    simp [validate_container, Container.add_log, h]

/-- A freshly assessed-looking container whose cargo weight is the known
value zero and whose duty is still unassessed. -/
def zeroWeightContainer : Container :=
  { sampleContainer with cargo_weight := some 0 }

/-- Claim C2 fails on the code: `if container.cargo_weight:` is a Python
truthiness test, so a known cargo weight of zero falls into the flat
fallback — the first `check_customs_status` assesses `150000.00`, not the
claimed `weight * 100 * 0.10 = 0`. -/
theorem C2_counterexample :
    zeroWeightContainer.cargo_weight = some 0 ∧
    zeroWeightContainer.customs_duty_amount = none ∧
    (check_customs_status zeroWeightContainer).2.customs_duty_amount =
      some 150000.00 ∧
    (150000.00 : ℚ) ≠ (0 : ℚ) * 100 * 0.10 := by
  refine ⟨rfl, rfl, ?_, by norm_num⟩
  simp [check_customs_status, zeroWeightContainer, sampleContainer, optRatTruthy]

/-- `Int.log 2` is pinned down by bracketing between consecutive powers
of two. -/
lemma int_log2_eq {r : ℚ} (hr : 0 < r) {e : ℤ} (h1 : (2 : ℚ) ^ e ≤ r)
    (h2 : r < (2 : ℚ) ^ (e + 1)) : Int.log 2 r = e := by
  have hb : 1 < (2 : ℕ) := by norm_num
  have h1n : ((2 : ℕ) : ℚ) ^ e ≤ r := by push_cast; exact h1
  have h2n : r < ((2 : ℕ) : ℚ) ^ (e + 1) := by push_cast; exact h2
  have hle : e ≤ Int.log 2 r := (Int.zpow_le_iff_le_log hb hr).mp h1n
  have hlt : Int.log 2 r < e + 1 := (Int.lt_zpow_iff_log_lt hb hr).mp h2n
  omega

/-- Rounding an integer to the nearest integer is the identity. -/
lemma rne_intCast (n : ℤ) : rne (n : ℚ) = n := by
  norm_num [rne]

/-- Round-to-nearest-even when the fractional part is below one half. -/
lemma rne_of_floor_lt_half {x : ℚ} {f : ℤ} (hf : ⌊x⌋ = f)
    (h : x - f < 1/2) : rne x = f := by
  unfold rne
  rw [hf, if_pos h]

/-- Round-to-nearest-even when the fractional part is above one half. -/
lemma rne_of_half_lt {x : ℚ} {f : ℤ} (hf : ⌊x⌋ = f) (h : 1/2 < x - f) :
    rne x = f + 1 := by
  have h1 : ¬ (x - (f : ℚ) < 1/2) := by linarith
  unfold rne
  rw [hf, if_neg h1, if_pos h]

/-- `roundToF64` on a positive rational of known binade. -/
lemma roundToF64_of_pos {q : ℚ} (h0 : 0 < q) {e : ℤ}
    (he : Int.log 2 q = e) :
    roundToF64 q = (rne (q / 2 ^ (e - 52)) : ℚ) * 2 ^ (e - 52) := by
  rw [roundToF64, if_neg (ne_of_gt h0), if_neg (not_lt.mpr h0.le),
    abs_of_pos h0, he, one_mul]

/-- The weight 18500 converts to binary64 exactly. -/
lemma roundToF64_18500 : roundToF64 (18500 : ℚ) = 18500 := by
  rw [roundToF64_of_pos (by norm_num)
    (int_log2_eq (by norm_num) (by norm_num) (by norm_num) :
      Int.log 2 (18500 : ℚ) = 14)]
  have h1 : (18500 : ℚ) / 2 ^ ((14 : ℤ) - 52) =
      ((5085241278464000 : ℤ) : ℚ) := by
    norm_num
  rw [h1, rne_intCast]
  norm_num

/-- The binary64 product `18500.0 * 100` is exact. -/
lemma f64Mul_18500_100 : f64Mul (18500 : ℚ) 100 = 1850000 := by
  rw [f64Mul, show (18500 : ℚ) * 100 = 1850000 by norm_num]
  rw [roundToF64_of_pos (by norm_num)
    (int_log2_eq (by norm_num) (by norm_num) (by norm_num) :
      Int.log 2 (1850000 : ℚ) = 20)]
  have h1 : (1850000 : ℚ) / 2 ^ ((20 : ℤ) - 52) =
      ((7945689497600000 : ℤ) : ℚ) := by
    norm_num
  rw [h1, rne_intCast]
  norm_num

/-- The Python literal `0.10` denotes the binary64 value
`3602879701896397 / 2^55`, strictly above one tenth. -/
lemma roundToF64_tenth :
    roundToF64 (0.10 : ℚ) = 3602879701896397 / 36028797018963968 := by
  have h10 : (0.10 : ℚ) = 1/10 := by norm_num
  rw [h10]
  rw [roundToF64_of_pos (by norm_num)
    (int_log2_eq (by norm_num) (by norm_num) (by norm_num) :
      Int.log 2 ((1 : ℚ)/10) = -4)]
  have hx : (1 : ℚ)/10 / 2 ^ ((-4 : ℤ) - 52) = 36028797018963968/5 := by
    norm_num
  rw [hx]
  rw [rne_of_half_lt (f := 7205759403792793)
    (by rw [Int.floor_eq_iff]; norm_num) (by norm_num)]
  norm_num

/-- The binary64 product `1850000.0 * 0.1` rounds back down to exactly
185000: the exact product sits about 0.35 ulp above 185000. -/
lemma f64Mul_1850000_tenth :
    f64Mul (1850000 : ℚ) (3602879701896397 / 36028797018963968) =
      185000 := by
  rw [f64Mul, show (1850000 : ℚ) * (3602879701896397 / 36028797018963968) =
    416582965531770903125 / 2251799813685248 by norm_num]
  rw [roundToF64_of_pos (by norm_num)
    (int_log2_eq (by norm_num) (by norm_num) (by norm_num) :
      Int.log 2 ((416582965531770903125 : ℚ) / 2251799813685248) = 17)]
  have hx : (416582965531770903125 : ℚ) / 2251799813685248 /
      2 ^ ((17 : ℤ) - 52) = 416582965531770903125/65536 := by
    norm_num
  rw [hx]
  rw [rne_of_floor_lt_half (f := 6356551598080000)
    (by rw [Int.floor_eq_iff]; norm_num) (by norm_num)]
  norm_num

/-- At weight 18500 the whole binary64 evaluation of
`float(weight) * 100 * 0.10` is exact: it yields exactly 185000. -/
lemma f64_duty_18500 :
    f64Mul (f64Mul (roundToF64 18500) 100) (roundToF64 0.10) = 185000 := by
  rw [roundToF64_18500, f64Mul_18500_100, roundToF64_tenth,
    f64Mul_1850000_tenth]

/-- Claim C2 (amended): on the first `check_customs_status` call with
`customs_duty_amount` unset, the engine assesses the binary64 (Python
`float`) evaluation of `weight * 100 * 0.10` when the cargo weight is
known and nonzero — at the spec's instance, weight 18500, that
evaluation is exact, yielding exactly 185000.00 — assesses the flat
fallback exactly 150000.00 when the weight is unknown or zero, and
advances `customs_status` from `PENDING` to `PAYMENT_REQUIRED`. -/
theorem C2_duty_assessment (c : Container)
    (h : c.customs_duty_amount = none) :
    (∀ w : ℚ, c.cargo_weight = some w → w ≠ 0 →
      (check_customs_status c).2.customs_duty_amount =
        some (f64Mul (f64Mul (roundToF64 w) 100) (roundToF64 0.10))) ∧
    (c.cargo_weight = some 18500 →
      (check_customs_status c).2.customs_duty_amount = some 185000.00) ∧
    ((c.cargo_weight = none ∨ c.cargo_weight = some 0) →
      (check_customs_status c).2.customs_duty_amount = some 150000.00) ∧
    (c.customs_status = CustomsStatus.PENDING →
      (check_customs_status c).2.customs_status =
        CustomsStatus.PAYMENT_REQUIRED) := by
  refine ⟨?_, ?_, ?_, ?_⟩
  · intro w hw hwz
    by_cases h2 : c.customs_status = CustomsStatus.PENDING <;>
      simp [check_customs_status, h, h2, hw, optRatTruthy, hwz]
  · intro hw
    by_cases h2 : c.customs_status = CustomsStatus.PENDING <;>
      simp [check_customs_status, h, h2, hw, optRatTruthy, f64_duty_18500,
        (by norm_num : (185000.00 : ℚ) = 185000)]
  · intro hw
    have ht : optRatTruthy c.cargo_weight = false := by
      rcases hw with hw | hw <;> simp [optRatTruthy, hw]
    by_cases h2 : c.customs_status = CustomsStatus.PENDING <;>
      simp [check_customs_status, h, h2, ht]
  · intro h2
    simp [check_customs_status, h, h2]

/-- Evaluation of `C2_duty_assessment` on `sampleContainer` (weight
18500, customs `PENDING`, duty unassessed): the assessed duty is exactly
185000.00 and customs moves to `PAYMENT_REQUIRED`. -/
theorem C2_duty_assessment_witness :
    (check_customs_status sampleContainer).2.customs_duty_amount =
      some 185000.00 ∧
    (check_customs_status sampleContainer).2.customs_status =
      CustomsStatus.PAYMENT_REQUIRED := by
  have h := C2_duty_assessment sampleContainer rfl
  exact ⟨h.2.1 rfl, h.2.2.2 rfl⟩

/-- A container whose assessed duty amount is zero, awaiting payment. -/
def zeroDutyContainer : Container :=
  { sampleContainer with
      customs_duty_amount := some 0,
      customs_status := CustomsStatus.PAYMENT_REQUIRED }

/-- Claim C3 fails on the code: the underpayment test
`container.customs_duty_amount and payload.amount < ...` first takes the
`Decimal` through Python truthiness, so an assessed duty amount of zero
disables the check — paying `-1 < 0` on such a container succeeds and
mutates the state instead of failing with the insufficient-payment
error. -/
theorem C3_counterexample :
    zeroDutyContainer.customs_duty_amount = some 0 ∧
    zeroDutyContainer.customs_status ≠ CustomsStatus.PAID ∧
    ((-1 : ℚ) < 0) ∧
    (pay_customs_duty zeroDutyContainer (-1)).1 =
      Except.ok { container_id := "MAEU4567890",
                  status := CustomsStatus.PAID,
                  amount_paid := -1 } ∧
    (pay_customs_duty zeroDutyContainer (-1)).2.customs_status =
      CustomsStatus.PAID := by
  refine ⟨rfl, by decide, by norm_num, ?_, ?_⟩ <;>
    simp [pay_customs_duty, zeroDutyContainer, sampleContainer,
      dutySetAndUnderpaid, Container.add_log]

/-- A paid container rejects every further payment unchanged
(api.py lines 229-230). -/
lemma pay_already_paid (c : Container) (amount : ℚ)
    (h : c.customs_status = CustomsStatus.PAID) :
    pay_customs_duty c amount = (Except.error ApiError.AlreadyPaid, c) := by
  simp [pay_customs_duty, h]

/-- Claim C3 (amended): for a container with an assessed *nonzero*
`customs_duty_amount` and `customs_status` not `PAID`, paying strictly
less than the assessed amount always fails with the
insufficient-payment error and leaves the container (hence its
`customs_status`) completely unchanged; paying the amount or more always
succeeds — marking the duty paid, stamping the payment, customs-clearing
the container and logging the payment — and every later payment call on
the resulting container fails with the already-paid error, again leaving
it unchanged. -/
theorem C3_payment_guard (c : Container) (d amount : ℚ)
    (hd : c.customs_duty_amount = some d) (hdz : d ≠ 0)
    (hnp : c.customs_status ≠ CustomsStatus.PAID) :
    (amount < d →
      pay_customs_duty c amount =
        (Except.error ApiError.InsufficientPayment, c)) ∧
    (d ≤ amount →
      pay_customs_duty c amount =
        (Except.ok { container_id := c.container_id,
                     status := CustomsStatus.PAID,
                     amount_paid := amount },
         ({ c with customs_status := CustomsStatus.PAID,
                   customs_paid_at := true,
                   overall_status := OverallStatus.CUSTOMS_CLEARED }).add_log
           "agent" "customs_payment") ∧
      (∀ amount2 : ℚ,
        pay_customs_duty (pay_customs_duty c amount).2 amount2 =
          (Except.error ApiError.AlreadyPaid,
           (pay_customs_duty c amount).2))) := by
  constructor
  · intro hlt
    have hins : dutySetAndUnderpaid c.customs_duty_amount amount = true := by
      simp [dutySetAndUnderpaid, hd, hdz, hlt]
    simp [pay_customs_duty, hnp, hins]
  · intro hge
    have hskip : dutySetAndUnderpaid c.customs_duty_amount amount = false := by
      simp [dutySetAndUnderpaid, hd, not_lt.mpr hge]
    constructor
    · simp [pay_customs_duty, hnp, hskip, Container.add_log]
    · intro amount2
      have hpaid : (pay_customs_duty c amount).2.customs_status =
          CustomsStatus.PAID := by
        simp [pay_customs_duty, hnp, hskip, Container.add_log]
      exact pay_already_paid _ amount2 hpaid

/-- `sampleContainer` with its duty assessed at 185000.00, awaiting
payment. -/
def assessedContainer : Container :=
  { sampleContainer with
      customs_duty_amount := some 185000.00,
      customs_status := CustomsStatus.PAYMENT_REQUIRED }

/-- Evaluation of `C3_payment_guard` on `assessedContainer`: underpaying
1000 is rejected unchanged; paying exactly 185000.00 marks the duty paid;
a further payment of 250000 then fails as already paid and mutates
nothing. -/
theorem C3_payment_guard_witness :
    (pay_customs_duty assessedContainer 1000 =
      (Except.error ApiError.InsufficientPayment, assessedContainer)) ∧
    ((pay_customs_duty assessedContainer 185000.00).2.customs_status =
      CustomsStatus.PAID) ∧
    (pay_customs_duty (pay_customs_duty assessedContainer 185000.00).2 250000 =
      (Except.error ApiError.AlreadyPaid,
       (pay_customs_duty assessedContainer 185000.00).2)) := by
  have hu := C3_payment_guard assessedContainer 185000.00 1000 rfl
    (by norm_num) (by decide)
  have hp := C3_payment_guard assessedContainer 185000.00 185000.00 rfl
    (by norm_num) (by decide)
  refine ⟨hu.1 (by norm_num), ?_, (hp.2 le_rfl).2 250000⟩
  rw [(hp.2 le_rfl).1]
  simp [Container.add_log]

end PortFlow
